import Mathlib

/-!
Shallow embedding of `src/main.rs` of the hello-wgpu repository: a winit
application that initializes a wgpu device/surface, uploads a 3-vertex
triangle, builds one render pipeline, and re-renders on every
`RedrawRequested` event.

Modelling conventions:
- `f32` literals appearing in the source (`0.0`, `0.5`, `-0.5`, `1.0`) are
  all exactly representable in IEEE binary32 and are never operated on
  arithmetically, so they are embedded as rationals without loss.
- wgpu bitflag constants (`TextureUsages`, `BufferUsages`, `ColorWrites`)
  are embedded as their numeric bit masks from the wgpu crate.
- GPU side effects (surface configuration, command recording, submission,
  presentation, redraw requests, event-loop exit) are embedded as an
  explicit trace of operations emitted by the event handler; the handler
  itself is a pure function `State → event → State × List GpuOp`.
- The fallible initialization steps (`unwrap` on adapter/device/surface,
  the index `capabilities.formats[0]`) are embedded with `Option`: `none`
  models the process-aborting panic path.
- The redraw arm models the successful frame path (the source `unwrap`s
  texture acquisition and aborts otherwise).
-/

namespace HelloWgpu

/-- A host-side vertex, `struct Vertex { position: [f32; 2], color: [f32; 3] }`. -/
structure Vertex where
  position : ℚ × ℚ
  color : ℚ × ℚ × ℚ
deriving DecidableEq

/-- Embedding of `std::mem::size_of::<Vertex>()`: five 4-byte floats, `repr(C)`, no padding. -/
def sizeOfVertex : Nat := 2 * 4 + 3 * 4

/-- Pixel formats are chosen at runtime from the surface capability list; the
program never inspects them, so they are embedded opaquely by an index. -/
structure TextureFormat where
  id : Nat
deriving DecidableEq

/-- Embedding of `wgpu::PresentMode` (the variants the program can name). -/
inductive PresentMode where
  | AutoVsync
  | AutoNoVsync
  | Fifo
  | Immediate
  | Mailbox
deriving DecidableEq

/-- Embedding of `wgpu::CompositeAlphaMode` (the variants the program can name). -/
inductive CompositeAlphaMode where
  | Auto
  | Opaque
  | PreMultiplied
  | PostMultiplied
  | Inherit
deriving DecidableEq

/-- Embedding of `wgpu::TextureUsages` bit masks. -/
def TextureUsages.COPY_SRC : Nat := 1
def TextureUsages.COPY_DST : Nat := 2
def TextureUsages.TEXTURE_BINDING : Nat := 4
def TextureUsages.STORAGE_BINDING : Nat := 8
def TextureUsages.RENDER_ATTACHMENT : Nat := 16

/-- Embedding of `wgpu::BufferUsages::VERTEX` bit mask. -/
def BufferUsages.VERTEX : Nat := 32

/-- Embedding of `wgpu::SurfaceConfiguration` as the program fills it in. -/
structure SurfaceConfiguration where
  usage : Nat
  format : TextureFormat
  width : Nat
  height : Nat
  present_mode : PresentMode
  alpha_mode : CompositeAlphaMode
  desired_maximum_frame_latency : Nat
  view_formats : List TextureFormat
deriving DecidableEq

/-- Embedding of `wgpu::SurfaceCapabilities`, restricted to the field the program reads. -/
structure SurfaceCapabilities where
  formats : List TextureFormat
deriving DecidableEq

/-- Embedding of `wgpu::PowerPreference`. -/
inductive PowerPreference where
  | None
  | LowPower
  | HighPerformance
deriving DecidableEq

/-- Embedding of `wgpu::RequestAdapterOptions`; the surface reference is embedded by
presence (`Option Unit`). -/
structure RequestAdapterOptions where
  power_preference : PowerPreference
  compatible_surface : Option Unit
  force_fallback_adapter : Bool
deriving DecidableEq

/-- The options the program passes to `instance.request_adapter`
(`src/main.rs` lines 47-51). -/
def requestAdapterOptions : RequestAdapterOptions :=
  { power_preference := PowerPreference.LowPower
    compatible_surface := some ()
    force_fallback_adapter := false }

/-- Adapter feature set, embedded as a bit mask. -/
structure Features where
  bits : Nat
deriving DecidableEq

/-- Adapter limits: the program never reads individual limit fields, so they
are embedded opaquely by an index. -/
structure Limits where
  id : Nat
deriving DecidableEq

/-- The adapter handle, restricted to what the program reads from it. -/
structure Adapter where
  features : Features
  limits : Limits
deriving DecidableEq

/-- Embedding of `wgpu::DeviceDescriptor` as the program fills it in. -/
structure DeviceDescriptor where
  label : Option String
  required_features : Features
  required_limits : Limits
deriving DecidableEq

/-- The descriptor the program passes to `adapter.request_device`
(`src/main.rs` lines 55-60). -/
def deviceDescriptor (adapter : Adapter) : DeviceDescriptor :=
  { label := none
    required_features := adapter.features
    required_limits := adapter.limits }

/-- The surface configuration built in `resumed` (`src/main.rs` lines 66-77):
`none` models the panic of `capabilities.formats[0]` on an empty list. -/
def mkSurfaceConfig (capabilities : SurfaceCapabilities) (width height : Nat) :
    Option SurfaceConfiguration :=
  match capabilities.formats with
  | [] => none
  | f :: _ =>
    some
      { usage := TextureUsages.RENDER_ATTACHMENT
        format := f
        width := width
        height := height
        present_mode := PresentMode.AutoVsync
        alpha_mode := CompositeAlphaMode.Auto
        desired_maximum_frame_latency := 2
        view_formats := [] }

/-- The host-side triangle array (`src/main.rs` lines 81-94). -/
def triangle : List Vertex :=
  [ { position := (0, 1/2), color := (1, 1, 1) }
  , { position := (1/2, -(1/2)), color := (1, 1, 1) }
  , { position := (-(1/2), -(1/2)), color := (1, 1, 1) } ]

/-- Embedding of `wgpu::util::BufferInitDescriptor`; `contents` keeps the vertex list
(the source passes its byte image via `bytemuck::cast_slice`). -/
structure BufferInitDescriptor where
  label : Option String
  contents : List Vertex
deriving DecidableEq

/-- The descriptor the program passes to `device.create_buffer_init`
(`src/main.rs` lines 96-100). The `usage` field is split off below to keep
the structure literal readable. -/
def verticesBufferInit : BufferInitDescriptor :=
  { label := none
    contents := triangle }

/-- The `usage` the program gives the vertex buffer: `BufferUsages::VERTEX`. -/
def verticesBufferUsage : Nat := BufferUsages.VERTEX

/-- Embedding of `wgpu::VertexFormat`, restricted to the variants the program uses. -/
inductive VertexFormat where
  | Float32x2
  | Float32x3
deriving DecidableEq

/-- Byte size of a vertex format (used by `vertex_attr_array!` to place
consecutive attributes). -/
def vertexFormatSize : VertexFormat → Nat
  | VertexFormat.Float32x2 => 8
  | VertexFormat.Float32x3 => 12

/-- Embedding of `wgpu::VertexAttribute`. -/
structure VertexAttribute where
  format : VertexFormat
  offset : Nat
  shader_location : Nat
deriving DecidableEq

/-- Embedding of `wgpu::VertexStepMode`. -/
inductive VertexStepMode where
  | Vertex
  | Instance
deriving DecidableEq

/-- Embedding of `wgpu::VertexBufferLayout`. -/
structure VertexBufferLayout where
  array_stride : Nat
  step_mode : VertexStepMode
  attributes : List VertexAttribute
deriving DecidableEq

/-- Semantics of `wgpu::vertex_attr_array![loc0 => F0, loc1 => F1, ...]`:
shader locations are as written and byte offsets accumulate the sizes of the
preceding formats. -/
def vertex_attr_array (offset : Nat) : List (Nat × VertexFormat) → List VertexAttribute
  | [] => []
  | (loc, f) :: rest =>
    { format := f, offset := offset, shader_location := loc }
      :: vertex_attr_array (offset + vertexFormatSize f) rest

/-- Embedding of `wgpu::ColorWrites::ALL` bit mask (RED, GREEN, BLUE, ALPHA). -/
def ColorWrites.ALL : Nat := 1 + 2 + 4 + 8

/-- Embedding of `wgpu::ColorTargetState`; `blend : Option Unit` records presence only,
the program passes `None`. -/
structure ColorTargetState where
  format : TextureFormat
  blend : Option Unit
  write_mask : Nat
deriving DecidableEq

/-- The parts of `wgpu::RenderPipelineDescriptor` the program fills with
non-default data (`src/main.rs` lines 110-140). -/
structure RenderPipelineDescriptor where
  vertex_entry_point : String
  vertex_buffers : List VertexBufferLayout
  fragment_entry_point : String
  fragment_targets : List (Option ColorTargetState)
  depth_stencil : Option Unit
deriving DecidableEq

/-- The pipeline descriptor built in `resumed`, as a function of the
surface's configured format. -/
def mkPipeline (format : TextureFormat) : RenderPipelineDescriptor :=
  { vertex_entry_point := "vs_main"
    vertex_buffers :=
      [ { array_stride := sizeOfVertex
          step_mode := VertexStepMode.Vertex
          attributes :=
            vertex_attr_array 0
              [(0, VertexFormat.Float32x2), (1, VertexFormat.Float32x3)] } ]
    fragment_entry_point := "fs_main"
    fragment_targets :=
      [ some { format := format, blend := none, write_mask := ColorWrites.ALL } ]
    depth_stencil := none }

/-- The initialized application state (`struct Application`), restricted to
the data the event handler reads. -/
structure Application where
  windowId : Nat
  surface_config : SurfaceConfiguration
  vertices : List Vertex
  pipeline : RenderPipelineDescriptor
deriving DecidableEq

/-- Embedding of `struct State { app: Option<Application> }`. -/
structure State where
  app : Option Application
deriving DecidableEq

/-- The `resumed` handler (`src/main.rs` lines 30-151), as a function of the
runtime inputs it consumes: the new window's id and inner size and the
surface capability list. `none` models any of the aborting panic paths. -/
def resumed (windowId width height : Nat) (capabilities : SurfaceCapabilities) :
    Option Application :=
  (mkSurfaceConfig capabilities width height).map fun surface_config =>
    { windowId := windowId
      surface_config := surface_config
      vertices := triangle
      pipeline := mkPipeline surface_config.format }

/-- Embedding of `wgpu::Color` (double-precision channels in wgpu; exact literals here). -/
structure Color where
  r : ℚ
  g : ℚ
  b : ℚ
  a : ℚ
deriving DecidableEq

/-- Embedding of `wgpu::Color::BLACK`. -/
def Color.BLACK : Color := { r := 0, g := 0, b := 0, a := 1 }

/-- Embedding of `wgpu::LoadOp`. -/
inductive LoadOp where
  | Clear (color : Color)
  | Load
deriving DecidableEq

/-- Embedding of `wgpu::StoreOp`. -/
inductive StoreOp where
  | Store
  | Discard
deriving DecidableEq

/-- Embedding of `wgpu::Operations` for a color attachment. -/
structure Operations where
  load : LoadOp
  store : StoreOp
deriving DecidableEq

/-- Embedding of `wgpu::RenderPassColorAttachment`; the view is the acquired frame's only
view, so it is not a datum; `resolve_target` records presence only. -/
structure RenderPassColorAttachment where
  resolve_target : Option Unit
  ops : Operations
deriving DecidableEq

/-- The parts of `wgpu::RenderPassDescriptor` the program fills with
non-default data. -/
structure RenderPassDescriptor where
  color_attachments : List (Option RenderPassColorAttachment)
  depth_stencil_attachment : Option Unit
deriving DecidableEq

/-- The render pass descriptor built in the `RedrawRequested` arm
(`src/main.rs` lines 190-204). -/
def redrawPassDesc : RenderPassDescriptor :=
  { color_attachments :=
      [ some
          { resolve_target := none
            ops := { load := LoadOp.Clear Color.BLACK, store := StoreOp.Store } } ]
    depth_stencil_attachment := none }

/-- One observable GPU/window-system operation performed by the handler, in
program order. -/
inductive GpuOp where
  | surfaceConfigure (config : SurfaceConfiguration)
  | getCurrentTexture
  | beginRenderPass (desc : RenderPassDescriptor)
  | setPipeline
  | setVertexBuffer (slot : Nat) (byteOffset : Nat)
  | draw (vertexStart vertexEnd instanceStart instanceEnd : Nat)
  | endRenderPass
  | finishEncoder
  | queueSubmit
  | present
  | requestRedraw
  | exitLoop
deriving DecidableEq

/-- Holds exactly on `beginRenderPass`. -/
def GpuOp.isBeginPass : GpuOp → Bool
  | GpuOp.beginRenderPass _ => true
  | _ => false

/-- Holds exactly on `setPipeline`. -/
def GpuOp.isSetPipeline : GpuOp → Bool
  | GpuOp.setPipeline => true
  | _ => false

/-- Holds exactly on `setVertexBuffer`. -/
def GpuOp.isSetVertexBuffer : GpuOp → Bool
  | GpuOp.setVertexBuffer _ _ => true
  | _ => false

/-- Holds exactly on `draw`. -/
def GpuOp.isDraw : GpuOp → Bool
  | GpuOp.draw _ _ _ _ => true
  | _ => false

/-- The operation sequence of one successful `RedrawRequested` frame
(`src/main.rs` lines 181-212), in source order: acquire, record the single
render pass (begin, bind pipeline, bind vertex buffer at slot 0 offset 0,
draw vertices 0..3 instances 0..1, end), finish the encoder, submit, present,
request the next redraw. -/
def frameOps : List GpuOp :=
  [ GpuOp.getCurrentTexture
  , GpuOp.beginRenderPass redrawPassDesc
  , GpuOp.setPipeline
  , GpuOp.setVertexBuffer 0 0
  , GpuOp.draw 0 3 0 1
  , GpuOp.endRenderPass
  , GpuOp.finishEncoder
  , GpuOp.queueSubmit
  , GpuOp.present
  , GpuOp.requestRedraw ]

/-- The events the `window_event` handler distinguishes. -/
inductive WindowEvent where
  | CloseRequested
  | Resized (width height : Nat)
  | RedrawRequested
  | other
deriving DecidableEq

/-- The `window_event` handler (`src/main.rs` lines 153-216): returns the
updated state and the trace of operations performed. -/
def window_event (s : State) (window_id : Nat) (event : WindowEvent) :
    State × List GpuOp :=
  match s.app with
  | none => (s, [])
  | some app =>
    if app.windowId ≠ window_id then (s, [])
    else
      match event with
      | WindowEvent.CloseRequested => (s, [GpuOp.exitLoop])
      | WindowEvent.Resized w h =>
        if 0 < w ∧ 0 < h then
          let config := { app.surface_config with width := w, height := h }
          ( { app := some { app with surface_config := config } }
          , [GpuOp.surfaceConfigure config] )
        else (s, [])
      | WindowEvent.RedrawRequested => (s, frameOps)
      | WindowEvent.other => (s, [])

/-- Run the handler over a sequence of `(window_id, event)` deliveries,
concatenating the traces in delivery order. -/
def runEvents (s : State) : List (Nat × WindowEvent) → State × List GpuOp
  | [] => (s, [])
  | (wid, e) :: rest =>
    let step := window_event s wid e
    let tail := runEvents step.1 rest
    (tail.1, step.2 ++ tail.2)

/-- The trace of `n` consecutive successful frames. -/
def frameTrace : Nat → List GpuOp
  | 0 => []
  | n + 1 => frameOps ++ frameTrace n

/-- A concrete initialized application used by witnesses. -/
def sampleApp : Application :=
  { windowId := 1
    surface_config :=
      { usage := TextureUsages.RENDER_ATTACHMENT
        format := { id := 0 }
        width := 800
        height := 600
        present_mode := PresentMode.AutoVsync
        alpha_mode := CompositeAlphaMode.Auto
        desired_maximum_frame_latency := 2
        view_formats := [] }
    vertices := triangle
    pipeline := mkPipeline { id := 0 } }

end HelloWgpu

namespace HelloWgpu

/-!
Helper lemmas shared by the claim theorems.
-/

/-- A `RedrawRequested` delivery to an initialized state with the matching
window id leaves the state unchanged and performs `frameOps`. -/
theorem window_event_redraw (app : Application) :
    window_event { app := some app } app.windowId WindowEvent.RedrawRequested
      = ({ app := some app }, frameOps) := by
  simp [window_event]

/-- Running `n` redraw deliveries produces the concatenated per-frame trace. -/
theorem runEvents_redraw_replicate (app : Application) (n : Nat) :
    runEvents { app := some app }
        (List.replicate n (app.windowId, WindowEvent.RedrawRequested))
      = ({ app := some app }, frameTrace n) := by
  induction n with
  | zero => rfl
  | succ m ih =>
    rw [List.replicate_succ]
    simp [runEvents, window_event_redraw, ih, frameTrace]

/-- Dropping `10 * k` operations from an `n`-frame trace leaves the trace of
the remaining `n - k` frames. -/
theorem frameTrace_drop (k n : Nat) :
    (frameTrace n).drop (10 * k) = frameTrace (n - k) := by
  induction k generalizing n with
  | zero => simp
  | succ j ih =>
    cases n with
    | zero => simp [frameTrace]
    | succ m =>
      have h10 : 10 * (j + 1) = 10 + 10 * j := by ring
      rw [h10, ← List.drop_drop]
      have hstep : (frameTrace (m + 1)).drop 10 = frameTrace m := rfl
      rw [hstep, ih]
      congr 1
      omega

/-- Element `10 * k + i` of an `n`-frame trace is element `i` of one frame,
whenever frame `k` exists and `i` is inside the frame. -/
theorem frameTrace_getElem (n k i : Nat) (hk : k < n) (hi : i < 10) :
    (frameTrace n)[10 * k + i]? = frameOps[i]? := by
  have hdrop := frameTrace_drop k n
  have h1 : (frameTrace n)[10 * k + i]? = ((frameTrace n).drop (10 * k))[i]? := by
    rw [List.getElem?_drop]
  rw [h1, hdrop]
  have h2 : ∃ p, n - k = p + 1 := ⟨n - k - 1, by omega⟩
  obtain ⟨p, hp⟩ := h2
  rw [hp]
  show (frameOps ++ frameTrace p)[i]? = frameOps[i]?
  have hlen : i < frameOps.length := by simpa [frameOps] using hi
  rw [List.getElem?_append, if_pos hlen]

/-!
Claim theorems.
-/

/-- Claim C1: for every `RedrawRequested` event handled while the application
is initialized, the handler records exactly one render pass whose single
color attachment loads with a clear to black and stores the result, binds the
pipeline, binds the vertex buffer at slot 0 with no byte offset, and issues
exactly one non-indexed draw call with vertex range 0..3 and instance range
0..1. -/
theorem c1_draw_call_shape (app : Application) :
    ((window_event { app := some app } app.windowId WindowEvent.RedrawRequested).2).filter
        GpuOp.isBeginPass
      = [GpuOp.beginRenderPass redrawPassDesc]
    ∧ redrawPassDesc
      = { color_attachments :=
            [ some
                { resolve_target := none
                  ops := { load := LoadOp.Clear Color.BLACK, store := StoreOp.Store } } ]
          depth_stencil_attachment := none }
    ∧ Color.BLACK = { r := 0, g := 0, b := 0, a := 1 }
    ∧ ((window_event { app := some app } app.windowId WindowEvent.RedrawRequested).2).filter
        GpuOp.isSetPipeline
      = [GpuOp.setPipeline]
    ∧ ((window_event { app := some app } app.windowId WindowEvent.RedrawRequested).2).filter
        GpuOp.isSetVertexBuffer
      = [GpuOp.setVertexBuffer 0 0]
    ∧ ((window_event { app := some app } app.windowId WindowEvent.RedrawRequested).2).filter
        GpuOp.isDraw
      = [GpuOp.draw 0 3 0 1] := by
  rw [window_event_redraw]
  exact ⟨rfl, rfl, rfl, rfl, rfl, rfl⟩

/-- Claim C2: every frame performs, in strict order, acquire, record the
render pass (finalized with `endRenderPass` at in-frame index 5 before the
submission at index 7), finish the encoder, submit, present, and then
unconditionally request another redraw (last in-frame operation, index 9);
across frames the trace of `n` redraw deliveries is the frame sequence
concatenated in delivery order, so frame `k`'s submission (global index
`10 * k + 7`) precedes frame `k + 1`'s acquisition (global index
`10 * (k + 1)`). -/
theorem c2_frame_protocol (app : Application) (n k : Nat) (hk : k < n) :
    (runEvents { app := some app }
        (List.replicate n (app.windowId, WindowEvent.RedrawRequested))).2 = frameTrace n
    ∧ frameOps
      = [ GpuOp.getCurrentTexture
        , GpuOp.beginRenderPass redrawPassDesc
        , GpuOp.setPipeline
        , GpuOp.setVertexBuffer 0 0
        , GpuOp.draw 0 3 0 1
        , GpuOp.endRenderPass
        , GpuOp.finishEncoder
        , GpuOp.queueSubmit
        , GpuOp.present
        , GpuOp.requestRedraw ]
    ∧ (frameTrace n)[10 * k]? = some GpuOp.getCurrentTexture
    ∧ (frameTrace n)[10 * k + 5]? = some GpuOp.endRenderPass
    ∧ (frameTrace n)[10 * k + 7]? = some GpuOp.queueSubmit
    ∧ (frameTrace n)[10 * k + 8]? = some GpuOp.present
    ∧ (frameTrace n)[10 * k + 9]? = some GpuOp.requestRedraw
    ∧ (k + 1 < n → (frameTrace n)[10 * (k + 1)]? = some GpuOp.getCurrentTexture) := by
  refine ⟨by rw [runEvents_redraw_replicate], rfl, ?_, ?_, ?_, ?_, ?_, ?_⟩
  · simpa [frameOps] using frameTrace_getElem n k 0 hk (by omega)
  · simpa [frameOps] using frameTrace_getElem n k 5 hk (by omega)
  · simpa [frameOps] using frameTrace_getElem n k 7 hk (by omega)
  · simpa [frameOps] using frameTrace_getElem n k 8 hk (by omega)
  · simpa [frameOps] using frameTrace_getElem n k 9 hk (by omega)
  · intro h1
    simpa [frameOps] using frameTrace_getElem n (k + 1) 0 h1 (by omega)

/-- Witness for C2 at two concrete frames: frame 0's submission precedes
frame 1's acquisition. -/
theorem c2_witness :
    (frameTrace 2)[10 * 0 + 7]? = some GpuOp.queueSubmit
    ∧ (frameTrace 2)[10 * (0 + 1)]? = some GpuOp.getCurrentTexture :=
  ⟨(c2_frame_protocol sampleApp 2 0 (by decide)).2.2.2.2.1,
   (c2_frame_protocol sampleApp 2 0 (by decide)).2.2.2.2.2.2.2 (by decide)⟩

/-- Claim C3: a `Resized` event with a zero width or zero height is a
complete no-op: the state (hence the stored surface configuration) is
unchanged and no operation — in particular no surface reconfiguration — is
performed. -/
theorem c3_zero_resize_noop (s : State) (window_id w h : Nat) (h0 : w = 0 ∨ h = 0) :
    window_event s window_id (WindowEvent.Resized w h) = (s, []) := by
  have hcond : ¬(0 < w ∧ 0 < h) := by
    rcases h0 with h0 | h0 <;> simp [h0]
  cases s with
  | mk appOpt =>
    cases appOpt with
    | none => rfl
    | some app =>
      by_cases hid : app.windowId ≠ window_id
      · simp [window_event, hid]
      · simp [window_event, hid, hcond]

/-- Witness for C3: resizing an initialized application to (0, 500) changes
nothing and performs nothing. -/
theorem c3_witness :
    window_event { app := some sampleApp } 1 (WindowEvent.Resized 0 500)
      = ({ app := some sampleApp }, []) :=
  c3_zero_resize_noop { app := some sampleApp } 1 0 500 (Or.inl rfl)

/-- Claim C4: resize is idempotent — for non-zero dimensions, delivering the
same `Resized` event twice yields the same state as delivering it once. -/
theorem c4_resize_idempotent (s : State) (window_id w h : Nat) (hw : 0 < w) (hh : 0 < h) :
    (window_event (window_event s window_id (WindowEvent.Resized w h)).1 window_id
        (WindowEvent.Resized w h)).1
      = (window_event s window_id (WindowEvent.Resized w h)).1 := by
  cases s with
  | mk appOpt =>
    cases appOpt with
    | none => rfl
    | some app =>
      by_cases hid : app.windowId ≠ window_id
      · simp [window_event, hid]
      · simp [window_event, hid, hw, hh]

/-- Witness for C4 at a concrete input: resizing twice to (400, 300) equals
resizing once. -/
theorem c4_witness :
    (window_event (window_event { app := some sampleApp } 1 (WindowEvent.Resized 400 300)).1 1
        (WindowEvent.Resized 400 300)).1
      = (window_event { app := some sampleApp } 1 (WindowEvent.Resized 400 300)).1 :=
  c4_resize_idempotent { app := some sampleApp } 1 400 300 (by decide) (by decide)

/-- Claim C5: a `Resized` event with both dimensions non-zero mutates only
the width and height of the surface configuration — format, usage, present
mode, alpha mode, desired maximum frame latency and view formats keep their
initialization-time values — and re-applies the configuration to the
surface. -/
theorem c5_resize_frame_effect (app : Application) (w h : Nat) (hw : 0 < w) (hh : 0 < h) :
    ∃ app',
      window_event { app := some app } app.windowId (WindowEvent.Resized w h)
        = ({ app := some app' }, [GpuOp.surfaceConfigure app'.surface_config])
      ∧ app'.surface_config.width = w
      ∧ app'.surface_config.height = h
      ∧ app'.surface_config.format = app.surface_config.format
      ∧ app'.surface_config.usage = app.surface_config.usage
      ∧ app'.surface_config.present_mode = app.surface_config.present_mode
      ∧ app'.surface_config.alpha_mode = app.surface_config.alpha_mode
      ∧ app'.surface_config.desired_maximum_frame_latency
          = app.surface_config.desired_maximum_frame_latency
      ∧ app'.surface_config.view_formats = app.surface_config.view_formats
      ∧ app'.windowId = app.windowId
      ∧ app'.vertices = app.vertices
      ∧ app'.pipeline = app.pipeline := by
  refine
    ⟨{ app with surface_config := { app.surface_config with width := w, height := h } },
      ?_, rfl, rfl, rfl, rfl, rfl, rfl, rfl, rfl, rfl, rfl, rfl⟩
  simp [window_event, hw, hh]

/-- Witness for C5 at a concrete input: resizing the sample application to
(400, 300). -/
theorem c5_witness :
    ∃ app',
      window_event { app := some sampleApp } sampleApp.windowId (WindowEvent.Resized 400 300)
        = ({ app := some app' }, [GpuOp.surfaceConfigure app'.surface_config])
      ∧ app'.surface_config.width = 400
      ∧ app'.surface_config.height = 300
      ∧ app'.surface_config.format = sampleApp.surface_config.format
      ∧ app'.surface_config.usage = sampleApp.surface_config.usage
      ∧ app'.surface_config.present_mode = sampleApp.surface_config.present_mode
      ∧ app'.surface_config.alpha_mode = sampleApp.surface_config.alpha_mode
      ∧ app'.surface_config.desired_maximum_frame_latency
          = sampleApp.surface_config.desired_maximum_frame_latency
      ∧ app'.surface_config.view_formats = sampleApp.surface_config.view_formats
      ∧ app'.windowId = sampleApp.windowId
      ∧ app'.vertices = sampleApp.vertices
      ∧ app'.pipeline = sampleApp.pipeline :=
  c5_resize_frame_effect sampleApp 400 300 (by decide) (by decide)

/-- Claim C6: the pipeline declares exactly one vertex buffer binding with
array stride the size of `Vertex` (20 bytes, five 4-byte floats), stepped
per vertex, with attribute 0 a 2-component 32-bit float vector at byte
offset 0 and attribute 1 a 3-component 32-bit float vector at byte offset 8,
which equals the byte size of attribute 0 (tightly packed). -/
theorem c6_vertex_layout (format : TextureFormat) :
    (mkPipeline format).vertex_buffers
      = [ { array_stride := sizeOfVertex
            step_mode := VertexStepMode.Vertex
            attributes :=
              [ { format := VertexFormat.Float32x2, offset := 0, shader_location := 0 }
              , { format := VertexFormat.Float32x3, offset := 8, shader_location := 1 } ] } ]
    ∧ sizeOfVertex = 20
    ∧ vertexFormatSize VertexFormat.Float32x2 = 8 :=
  ⟨rfl, rfl, rfl⟩

/-- Claim C7: the surface configuration built at activation has the first
supported format, render-attachment usage only, automatic-vsync present
mode, automatic alpha mode, desired maximum frame latency 2, and the
window's inner size. -/
theorem c7_initial_config (windowId width height : Nat)
    (capabilities : SurfaceCapabilities) (f : TextureFormat) (rest : List TextureFormat)
    (hf : capabilities.formats = f :: rest) :
    ∃ app, resumed windowId width height capabilities = some app
      ∧ app.surface_config.format = f
      ∧ app.surface_config.usage = TextureUsages.RENDER_ATTACHMENT
      ∧ app.surface_config.present_mode = PresentMode.AutoVsync
      ∧ app.surface_config.alpha_mode = CompositeAlphaMode.Auto
      ∧ app.surface_config.desired_maximum_frame_latency = 2
      ∧ app.surface_config.width = width
      ∧ app.surface_config.height = height
      ∧ app.surface_config.view_formats = [] := by
  unfold resumed mkSurfaceConfig
  rw [hf]
  exact ⟨_, rfl, rfl, rfl, rfl, rfl, rfl, rfl, rfl, rfl⟩

/-- Witness for C7 at a concrete capability list with two formats. -/
theorem c7_witness :
    ∃ app,
      resumed 1 800 600 { formats := [{ id := 5 }, { id := 6 }] } = some app
      ∧ app.surface_config.format = { id := 5 }
      ∧ app.surface_config.usage = TextureUsages.RENDER_ATTACHMENT
      ∧ app.surface_config.present_mode = PresentMode.AutoVsync
      ∧ app.surface_config.alpha_mode = CompositeAlphaMode.Auto
      ∧ app.surface_config.desired_maximum_frame_latency = 2
      ∧ app.surface_config.width = 800
      ∧ app.surface_config.height = 600
      ∧ app.surface_config.view_formats = [] :=
  c7_initial_config 1 800 600 { formats := [{ id := 5 }, { id := 6 }] }
    { id := 5 } [{ id := 6 }] rfl

/-- Claim C8: the adapter request asks for a low-power adapter compatible
with the created surface with no fallback to a software adapter, and the
device request asks for exactly the adapter's full feature set and full
limit set. -/
theorem c8_adapter_device_request (adapter : Adapter) :
    requestAdapterOptions.power_preference = PowerPreference.LowPower
    ∧ requestAdapterOptions.compatible_surface = some ()
    ∧ requestAdapterOptions.force_fallback_adapter = false
    ∧ (deviceDescriptor adapter).required_features = adapter.features
    ∧ (deviceDescriptor adapter).required_limits = adapter.limits
    ∧ (deviceDescriptor adapter).label = none :=
  ⟨rfl, rfl, rfl, rfl, rfl, rfl⟩

/-- Claim C9: a window event delivered before activation (state absent) or
carrying a foreign window id is entirely ignored: the state is unchanged and
no operation — in particular no event-loop exit for `CloseRequested` — is
performed. -/
theorem c9_ignored_events (s : State) (window_id : Nat) (event : WindowEvent)
    (h : s.app = none ∨ ∃ app, s.app = some app ∧ app.windowId ≠ window_id) :
    window_event s window_id event = (s, []) := by
  cases s with
  | mk appOpt =>
    cases appOpt with
    | none => rfl
    | some app =>
      rcases h with h | ⟨app', happ, hid⟩
      · exact Option.noConfusion h
      · cases happ
        simp [window_event, hid]

/-- Witness for C9: a `CloseRequested` before activation does not exit the
loop and leaves the state unchanged. -/
theorem c9_witness :
    window_event { app := none } 0 WindowEvent.CloseRequested = ({ app := none }, []) :=
  c9_ignored_events { app := none } 0 WindowEvent.CloseRequested (Or.inl rfl)

/-- Claim C10: the uploaded geometry is exactly three vertices with
positions (0, 0.5), (0.5, -0.5), (-0.5, -0.5), all carrying the identical
color (1, 1, 1); the buffer's initial contents are this data, its usage is
vertex-only, and every successful activation stores exactly this vertex
list. -/
theorem c10_triangle_geometry :
    triangle
      = [ { position := (0, 1/2), color := (1, 1, 1) }
        , { position := (1/2, -(1/2)), color := (1, 1, 1) }
        , { position := (-(1/2), -(1/2)), color := (1, 1, 1) } ]
    ∧ triangle.length = 3
    ∧ triangle.map Vertex.color = [(1, 1, 1), (1, 1, 1), (1, 1, 1)]
    ∧ verticesBufferInit.contents = triangle
    ∧ verticesBufferInit.label = none
    ∧ verticesBufferUsage = BufferUsages.VERTEX
    ∧ ∀ windowId width height capabilities,
        (resumed windowId width height capabilities).elim True
          (fun app => app.vertices = triangle) := by
  refine ⟨rfl, rfl, rfl, rfl, rfl, rfl, ?_⟩
  intro windowId width height capabilities
  unfold resumed mkSurfaceConfig
  cases hc : capabilities.formats with
  | nil => simp
  | cons f rest => simp

end HelloWgpu
